import Mathlib

/-!
# Verification of the audio reCAPTCHA solver (`solver.py`)

A shallow embedding of the challenge-solving state machine of the
repository's `solver.py`:

* `solveAudioChallenge` embeds `_solve_audio_challenge` (download link wait,
  temp-file creation, MP3→WAV conversion, recognition with language
  fallback, guaranteed temp-file cleanup in a `finally` block);
* `solve` embeds `solve_recaptcha_v2_challenge` (frame switching, the
  audio-mode switch attempt, verify click, the bounded post-verify retry
  loop with its `for … else` exhaustion branch, and the final
  `switch_to.parent_frame()`);
* `isSolved` embeds `is_solved` (the status probe that catches every
  internal failure and resets to the top-level document).

External effects (element waits, HTTP fetch, audio conversion, the speech
recognition service, uuid generation) are supplied by environment records;
the browser frame context is a stack of frames, the filesystem is the list
of existing temp-file paths, and the observable actions of a run are
recorded in an event trace.
-/

namespace BreakingRecap

/-- Identifier of an embedded document the session can switch into. -/
inductive Frame
  | challenge   -- the reCAPTCHA challenge iframe passed to `solve_recaptcha_v2_challenge`
  | checkbox    -- the checkbox anchor iframe entered by `is_solved`
  deriving DecidableEq, Repr

/-- Exceptions that the solver's Python code can raise or propagate. -/
inductive Exc
  | timeout                  -- selenium `TimeoutException`
  | recaptcha (msg : String) -- `RecaptchaException(msg)`
  | other (msg : String)     -- any other exception (requests/pydub/selenium errors)
  deriving DecidableEq, Repr

/-- Outcome of one `recognize_google(audio, language=lang)` call. -/
inductive RecResult
  | ok (text : String)         -- recognition returned `text`
  | unknown                    -- `sr.UnknownValueError` ("could not understand")
  | requestError (msg : String) -- `sr.RequestError` (transport/service fault)
  deriving DecidableEq, Repr

/-- Observable actions of a solver run, in the order they happen. -/
inductive Event
  | switchToFrame                 -- `driver.switch_to.frame(iframe)`
  | clickAudioButton              -- `self._js_click(audio_button)`
  | sleepUniform (lo hi : ℚ)      -- a hard-coded `time.sleep(random.uniform(lo, hi))`
  | delayCheckboxInvoked          -- a call to `delay_config.delay_after_click_checkbox()`
  | delayVerifyInvoked            -- a call to `delay_config.delay_after_click_verify_button()`
  | pipelineCall (k : Nat)        -- the k-th invocation of `_solve_audio_challenge`
  | clickVerify                   -- `self._js_click(verify_button)`
  | probeError (i : Nat)          -- the error-indicator wait of retry iteration i
  | switchToParent                -- `driver.switch_to.parent_frame()`
  deriving DecidableEq, Repr

/-- A delay policy: the spec's Delay Policy contract says each operation's
side effect is purely temporal, so a policy is the list of randomized
sleep ranges each of its two operations performs. -/
structure DelayConfig where
  checkboxSleeps : List (ℚ × ℚ)  -- sleeps done by `delay_after_click_checkbox`
  verifySleeps : List (ℚ × ℚ)    -- sleeps done by `delay_after_click_verify_button`

/-- `StandardDelayConfig`: checkbox delay `uniform(1.5, 3.0)`, verify delay
`uniform(1.0, 2.0)`. -/
def StandardDelayConfig : DelayConfig :=
  { checkboxSleeps := [(3/2, 3)], verifySleeps := [(1, 2)] }

/-- A substitutable no-op delay policy (sleeps nowhere). -/
def NoOpDelayConfig : DelayConfig :=
  { checkboxSleeps := [], verifySleeps := [] }

/-! ## Transcription pipeline: `_solve_audio_challenge` -/

/-- Environment of one `_solve_audio_challenge` invocation: which external
steps succeed and what the recognition service answers per language. -/
structure AudioEnv where
  linkFound : Bool   -- the `rc-audiochallenge-tdownload-link` wait (10s) succeeds
  fetchOk : Bool     -- `requests.get` of the audio URL succeeds
  convertOk : Bool   -- `AudioSegment.from_mp3(...).export(...)` succeeds
  recordOk : Bool    -- opening the WAV and `recognizer.record` succeed
  recognize : String → RecResult  -- `recognize_google` outcome per language code

/-- Python's `str.lower()` on the recognized text: lower-case every
character. -/
def lowerStr (s : String) : String := ⟨s.data.map Char.toLower⟩

/-- The language fallback list of `_solve_audio_challenge`:
`languages = [language, 'en-US', 'en-GB', 'en']`. -/
def fallbackLanguages (language : String) : List String :=
  [language, "en-US", "en-GB", "en"]

/-- The recognition `for lang in languages` loop: returns the languages that
were attempted and either the service-error message (`sr.RequestError`,
which aborts the loop) or the final value of `recognized_text`
(`none` when every language raised `sr.UnknownValueError`).  A successful
recognition is lower-cased and breaks the loop. -/
def recognizeWithFallback (rec : String → RecResult) :
    List String → List String × Except String (Option String)
  | [] => ([], .ok none)
  | lang :: rest =>
    match rec lang with
    | .ok text => ([lang], .ok (some (lowerStr text)))
    | .unknown =>
      let (att, r) := recognizeWithFallback rec rest
      (lang :: att, r)
    | .requestError msg => ([lang], .error msg)

/-- `mp3_file = os.path.join(tmp_dir, f'{id_}_tmp.mp3')`. -/
def mp3File (tmpDir id_ : String) : String := tmpDir ++ "/" ++ id_ ++ "_tmp.mp3"

/-- `wav_file = os.path.join(tmp_dir, f'{id_}_tmp.wav')`. -/
def wavFile (tmpDir id_ : String) : String := tmpDir ++ "/" ++ id_ ++ "_tmp.wav"

/-- The temp files that exist on disk at the moment the `try` block of
`_solve_audio_challenge` is left (by return or by exception): the MP3 is
written only when the download succeeded, the WAV only when the conversion
also succeeded. -/
def tryBlockFiles (a : AudioEnv) (mp3 wav : String) : List String :=
  if !a.fetchOk then []
  else if !a.convertOk then [mp3]
  else [mp3, wav]

/-- Result of the `try` block of `_solve_audio_challenge` after the download
link was located: the transcript, or the exception the block raises.
An `sr.RequestError` is wrapped into
`RecaptchaException('Speech recognition service error: …')`; a falsy
`recognized_text` (never assigned, or the empty string) raises
`RecaptchaException('Speech recognition API could not understand audio, try again')`. -/
def tryBlockResult (a : AudioEnv) (language : String) : Except Exc String :=
  if !a.fetchOk then .error (.other "audio download failed")
  else if !a.convertOk then .error (.other "audio conversion failed")
  else if !a.recordOk then .error (.other "audio load failed")
  else
    match (recognizeWithFallback a.recognize (fallbackLanguages language)).2 with
    | .error msg => .error (.recaptcha ("Speech recognition service error: " ++ msg))
    | .ok none =>
      .error (.recaptcha "Speech recognition API could not understand audio, try again")
    | .ok (some t) =>
      if t = "" then
        .error (.recaptcha "Speech recognition API could not understand audio, try again")
      else .ok t

/-- The value `_solve_audio_challenge` returns or the exception it raises:
a download-link wait timeout becomes
`RecaptchaException('Google has detected automated queries. Try again later.')`;
otherwise the `try` block decides. -/
def audioResult (a : AudioEnv) (language : String) : Except Exc String :=
  if !a.linkFound then
    .error (.recaptcha "Google has detected automated queries. Try again later.")
  else tryBlockResult a language

/-- The languages recognition was actually attempted with during one
`_solve_audio_challenge` invocation (empty when an earlier step failed). -/
def audioAttempts (a : AudioEnv) (language : String) : List String :=
  if a.linkFound && a.fetchOk && a.convertOk && a.recordOk then
    (recognizeWithFallback a.recognize (fallbackLanguages language)).1
  else []

/-- One complete `_solve_audio_challenge` run. -/
structure AudioRun where
  fs : List String              -- the filesystem after the call
  attempts : List String        -- languages recognition was attempted with
  result : Except Exc String    -- transcript, or the raised exception

/-- Embedding of `_solve_audio_challenge(language)` acting on the filesystem
`fs`: on a download-link timeout nothing is created (the uuid is generated
after the link is located); otherwise the `try` block creates its temp
files and the `finally` block removes every member of
`tmp_files = {mp3_file, wav_file}` that exists, on success and failure
alike. -/
def solveAudioChallenge (a : AudioEnv) (tmpDir language id_ : String)
    (fs : List String) : AudioRun :=
  if !a.linkFound then
    { fs := fs, attempts := [], result := audioResult a language }
  else
    let mp3 := mp3File tmpDir id_
    let wav := wavFile tmpDir id_
    let fsInTry := tryBlockFiles a mp3 wav ++ fs
    -- the `finally` block: `os.remove` every existing member of `tmp_files`
    let fsAfter := fsInTry.filter fun p => decide (p ≠ mp3) && decide (p ≠ wav)
    { fs := fsAfter, attempts := audioAttempts a language,
      result := audioResult a language }

/-! ## Challenge state machine: `solve_recaptcha_v2_challenge` -/

/-- Browser-session and solver state threaded through a run: the frame
context is a stack of frames (empty = top-level document, caller's context
at the bottom), `fs` the existing temp files, `trace` the actions so far. -/
structure SolveState where
  frames : List Frame
  fs : List String
  trace : List Event
  deriving Repr

/-- Environment of one `solve_recaptcha_v2_challenge` invocation: outcomes
of all element waits and of each transcription-pipeline invocation. -/
structure SolveEnv where
  audioButtonFound : Bool         -- `recaptcha-audio-button` wait (2s) succeeds
  verifyButtonFound : Bool        -- initial `recaptcha-verify-button` wait (5s) succeeds
  errorIndicator : Nat → Bool     -- `rc-audiochallenge-error-message` wait (1s) on iteration i succeeds
  verifyRetryFound : Nat → Bool   -- the re-located verify button wait on iteration i succeeds
  audioEnvs : Nat → AudioEnv      -- environment of the k-th pipeline invocation (0 = initial)
  ids : Nat → String              -- `uuid.uuid4().hex` of the k-th pipeline invocation
  tmpDir : String                 -- `tempfile.gettempdir()`

/-- Run the k-th `_solve_audio_challenge` invocation against the current
state, recording the invocation in the trace. -/
def runPipeline (env : SolveEnv) (language : String) (k : Nat)
    (s : SolveState) : SolveState × Except Exc String :=
  let run := solveAudioChallenge (env.audioEnvs k) env.tmpDir language (env.ids k) s.fs
  ({ s with fs := run.fs, trace := s.trace ++ [.pipelineCall k] }, run.result)

/-- How the `for i in range(self._max_retries)` loop ends. -/
inductive LoopExit
  | solved            -- `break`: a `TimeoutException` inside the `try` block
  | exhausted         -- the loop ran all its iterations without a `break`
  | raised (e : Exc)  -- a non-timeout exception propagated out of the loop
  deriving DecidableEq, Repr

/-- Embedding of the post-verify retry loop (iteration index `i`, `m`
iterations remaining).  Each iteration waits 1s for the error indicator —
its absence is a `TimeoutException`, caught as "no error" → `break`; its
presence triggers a fresh pipeline invocation (whose failures propagate)
and a re-located verify click, where a verify-wait timeout is likewise
caught by the `except TimeoutException: break`. -/
def retryLoop (env : SolveEnv) (language : String) :
    Nat → Nat → SolveState → SolveState × LoopExit
  | _, 0, s => (s, .exhausted)
  | i, m + 1, s =>
    let s := { s with trace := s.trace ++ [.probeError i] }
    if env.errorIndicator i = false then
      (s, .solved)
    else
      let pr := runPipeline env language (i + 1) s
      match pr.2 with
      | .error e => (pr.1, .raised e)
      | .ok _ =>
        if env.verifyRetryFound i = false then
          (pr.1, .solved)
        else
          retryLoop env language (i + 1) m
            { pr.1 with trace := pr.1.trace ++ [.clickVerify] }

/-- Embedding of `solve_recaptcha_v2_challenge(iframe)`:

1. switch into the challenge frame;
2. try the audio-mode button (2s); if found, JS-click it and do the
   hard-coded `time.sleep(random.uniform(2, 3))`; a timeout is caught and
   ignored;
3. invoke `_solve_audio_challenge` (failures propagate);
4. wait for the verify button (5s; a timeout propagates), JS-click it, and
   invoke the delay policy's `delay_after_click_verify_button`;
5. run the retry loop; if it finishes without a `break`, the `for … else`
   raises `RecaptchaException('Failed to solve captcha after maximum retry attempts')`;
6. only on the success path, `switch_to.parent_frame()`. -/
def solve (env : SolveEnv) (dc : DelayConfig) (language : String)
    (maxRetries : Nat) (s0 : SolveState) : SolveState × Except Exc Unit :=
  let s := { s0 with frames := Frame.challenge :: s0.frames,
                     trace := s0.trace ++ [.switchToFrame] }
  let s :=
    if env.audioButtonFound then
      { s with trace := s.trace ++ [.clickAudioButton, .sleepUniform 2 3] }
    else s
  let pr := runPipeline env language 0 s
  match pr.2 with
  | .error e => (pr.1, .error e)
  | .ok _ =>
    if env.verifyButtonFound = false then
      (pr.1, .error .timeout)
    else
      let s := { pr.1 with trace := pr.1.trace ++ [.clickVerify, .delayVerifyInvoked]
                   ++ dc.verifySleeps.map fun p => .sleepUniform p.1 p.2 }
      let lr := retryLoop env language 0 maxRetries s
      match lr.2 with
      | .raised e => (lr.1, .error e)
      | .exhausted =>
        (lr.1, .error (.recaptcha "Failed to solve captcha after maximum retry attempts"))
      | .solved =>
        ({ lr.1 with frames := lr.1.frames.tail,
                     trace := lr.1.trace ++ [.switchToParent] },
         .ok ())

/-- Number of transcription-pipeline invocations recorded in a trace. -/
def countPipeline (tr : List Event) : Nat :=
  (tr.filter fun e => match e with | .pipelineCall _ => true | _ => false).length

/-- Number of verify-button activations recorded in a trace. -/
def countVerify (tr : List Event) : Nat :=
  (tr.filter fun e => match e with | .clickVerify => true | _ => false).length

/-- Number of error-indicator probes recorded in a trace. -/
def countProbe (tr : List Event) : Nat :=
  (tr.filter fun e => match e with | .probeError _ => true | _ => false).length

/-! ## Status probe: `is_solved` -/

/-- Environment of one `is_solved` call. -/
structure ProbeEnv where
  iframeFound : Bool           -- `find_element` of the reCAPTCHA-titled iframe succeeds
  checkboxFound : Bool         -- the `recaptcha-anchor` presence wait (5s) succeeds
  attrReadOk : Bool            -- `get_attribute("aria-checked")` succeeds (no stale reference)
  ariaChecked : Option String  -- the attribute value (`None` possible)

/-- The `try` block of `is_solved`: switch to the top-level document, enter
the checkbox iframe, wait for the checkbox, read `aria-checked`, compare
with `"true"`, and reset to the top-level document. -/
def isSolvedBody (p : ProbeEnv) (s : SolveState) : SolveState × Except Exc Bool :=
  let s := { s with frames := [] }
  if !p.iframeFound then (s, .error (.other "NoSuchElementException"))
  else
    let s := { s with frames := [Frame.checkbox] }
    if !p.checkboxFound then (s, .error .timeout)
    else if !p.attrReadOk then (s, .error (.other "StaleElementReferenceException"))
    else
      ({ s with frames := [] }, .ok (p.ariaChecked == some "true"))

/-- Embedding of `is_solved()`: the `except Exception` handler turns every
failure of the body into `switch_to.default_content(); return False`. -/
def isSolved (p : ProbeEnv) (s : SolveState) : SolveState × Bool :=
  match isSolvedBody p s with
  | (s, .ok b) => (s, b)
  | (s, .error _) => ({ s with frames := [] }, false)

/-! ## Helper predicates -/

/-- Whether a pipeline invocation returned a transcript. -/
def resultOk : Except Exc String → Bool
  | .ok _ => true
  | .error _ => false

/-- Whether a `solve` run returned normally. -/
def excOk : Except Exc Unit → Bool
  | .ok _ => true
  | .error _ => false

/-- Events that can occur at or after the first pipeline invocation of a
`solve` run (everything except the frame entry, the audio-button click and
a checkbox-delay invocation). -/
def isPostPipelineEvent : Event → Bool
  | .switchToFrame => false
  | .clickAudioButton => false
  | .delayCheckboxInvoked => false
  | _ => true

/-- The three conditions under which retry iteration `i` runs in full and
continues to the next iteration: the error indicator was observed, the
fresh pipeline invocation (the `(i+1)`-st overall) succeeded, and the
re-located verify button was found. -/
def fullIteration (env : SolveEnv) (language : String) (i : Nat) : Prop :=
  env.errorIndicator i = true ∧
    resultOk (audioResult (env.audioEnvs (i + 1)) language) = true ∧
    env.verifyRetryFound i = true

instance (env : SolveEnv) (language : String) (i : Nat) :
    Decidable (fullIteration env language i) := by
  unfold fullIteration; infer_instance

/-! ## Intermediate states of a `solve` run -/

/-- State after entering the challenge frame and attempting the
audio-mode switch. -/
def entryState (env : SolveEnv) (s0 : SolveState) : SolveState :=
  { frames := Frame.challenge :: s0.frames,
    fs := s0.fs,
    trace := s0.trace ++ [.switchToFrame] ++
      (if env.audioButtonFound then [.clickAudioButton, .sleepUniform 2 3] else []) }

/-- State after the initial pipeline invocation. -/
def afterPipeline0 (env : SolveEnv) (language : String) (s0 : SolveState) : SolveState :=
  { frames := Frame.challenge :: s0.frames,
    fs := (solveAudioChallenge (env.audioEnvs 0) env.tmpDir language (env.ids 0) s0.fs).fs,
    trace := (entryState env s0).trace ++ [.pipelineCall 0] }

/-- State after the initial verify click and its delay-policy pause,
i.e. the state the retry loop starts from. -/
def postVerifyState (env : SolveEnv) (dc : DelayConfig) (language : String)
    (s0 : SolveState) : SolveState :=
  { afterPipeline0 env language s0 with
    trace := (afterPipeline0 env language s0).trace ++ [.clickVerify, .delayVerifyInvoked]
      ++ dc.verifySleeps.map fun p => .sleepUniform p.1 p.2 }

/-! ## Concrete environments used to evaluate the embedding -/

/-- An attempt where everything succeeds and recognition hears "blue cat". -/
def okAudio : AudioEnv :=
  { linkFound := true, fetchOk := true, convertOk := true, recordOk := true,
    recognize := fun _ => .ok "blue cat" }

/-- Every language "succeeds" with the empty transcript. -/
def emptyTranscriptAudio : AudioEnv :=
  { okAudio with recognize := fun _ => .ok "" }

/-- The configured language is not understood; the first fallback hears
"Blue Cat". -/
def mixedAudio : AudioEnv :=
  { okAudio with recognize := fun l => if l = "en-US" then .ok "Blue Cat" else .unknown }

/-- The configured language is not understood; the first fallback hits a
recognition-service fault. -/
def svcErrAudio : AudioEnv :=
  { okAudio with
    recognize := fun l => if l = "fr-FR" then .unknown else .requestError "quota exceeded" }

/-- The audio download link never appears. -/
def badLinkAudio : AudioEnv := { okAudio with linkFound := false }

/-- Initial state: top-level document, empty temp dir, empty trace. -/
def initState : SolveState := { frames := [], fs := [], trace := [] }

/-- A run where every element is found, no error indicator ever shows and
every pipeline invocation succeeds. -/
def happyEnv : SolveEnv :=
  { audioButtonFound := true, verifyButtonFound := true,
    errorIndicator := fun _ => false, verifyRetryFound := fun _ => true,
    audioEnvs := fun _ => okAudio, ids := fun _ => "id", tmpDir := "/tmp" }

/-- A run where the audio download link is never found. -/
def detectEnv : SolveEnv := { happyEnv with audioEnvs := fun _ => badLinkAudio }

/-- A run where the error indicator shows on every retry iteration. -/
def allErrorEnv : SolveEnv := { happyEnv with errorIndicator := fun _ => true }

/-- A run where the error indicator shows on iteration 0 and is absent from
iteration 1 on. -/
def breakAt1Env : SolveEnv := { happyEnv with errorIndicator := fun i => decide (i = 0) }

/-- A run that starts directly in audio mode (no audio-mode button). -/
def noAudioButtonEnv : SolveEnv := { happyEnv with audioButtonFound := false }

/-- A status probe whose checkbox iframe cannot be located. -/
def failProbe : ProbeEnv :=
  { iframeFound := false, checkboxFound := true, attrReadOk := true,
    ariaChecked := some "true" }

/-- A status probe that finds a checked checkbox. -/
def okProbe : ProbeEnv :=
  { iframeFound := true, checkboxFound := true, attrReadOk := true,
    ariaChecked := some "true" }

/-! ## Basic lemmas -/

lemma resultOk_iff {r : Except Exc String} : resultOk r = true ↔ ∃ t, r = .ok t := by
  cases r <;> simp [resultOk]

lemma solveAudioChallenge_result (a : AudioEnv) (tmpDir language id_ : String)
    (fs : List String) :
    (solveAudioChallenge a tmpDir language id_ fs).result = audioResult a language := by
  unfold solveAudioChallenge
  split <;> rfl

lemma solveAudioChallenge_attempts (a : AudioEnv) (tmpDir language id_ : String)
    (fs : List String) :
    (solveAudioChallenge a tmpDir language id_ fs).attempts = audioAttempts a language := by
  by_cases h : a.linkFound <;> simp [solveAudioChallenge, audioAttempts, h]

lemma runPipeline_snd (env : SolveEnv) (language : String) (k : Nat) (s : SolveState) :
    (runPipeline env language k s).2 = audioResult (env.audioEnvs k) language := by
  simp [runPipeline, solveAudioChallenge_result]

lemma runPipeline_frames (env : SolveEnv) (language : String) (k : Nat) (s : SolveState) :
    ((runPipeline env language k s).1).frames = s.frames := rfl

lemma runPipeline_trace (env : SolveEnv) (language : String) (k : Nat) (s : SolveState) :
    ((runPipeline env language k s).1).trace = s.trace ++ [.pipelineCall k] := rfl

lemma countPipeline_append (t u : List Event) :
    countPipeline (t ++ u) = countPipeline t + countPipeline u := by
  simp [countPipeline]

lemma countVerify_append (t u : List Event) :
    countVerify (t ++ u) = countVerify t + countVerify u := by
  simp [countVerify]

lemma countProbe_append (t u : List Event) :
    countProbe (t ++ u) = countProbe t + countProbe u := by
  simp [countProbe]

lemma countPipeline_sleeps (L : List (ℚ × ℚ)) :
    countPipeline (L.map fun p => Event.sleepUniform p.1 p.2) = 0 := by
  induction L with
  | nil => rfl
  | cons a t ih => simpa [countPipeline, List.filter] using ih

lemma countVerify_sleeps (L : List (ℚ × ℚ)) :
    countVerify (L.map fun p => Event.sleepUniform p.1 p.2) = 0 := by
  induction L with
  | nil => rfl
  | cons a t ih => simpa [countVerify, List.filter] using ih

lemma countProbe_sleeps (L : List (ℚ × ℚ)) :
    countProbe (L.map fun p => Event.sleepUniform p.1 p.2) = 0 := by
  induction L with
  | nil => rfl
  | cons a t ih => simpa [countProbe, List.filter] using ih

/-- Languages that raise `sr.UnknownValueError` are consumed one by one,
the loop continuing past each of them. -/
lemma recognizeWithFallback_append (rec : String → RecResult) (pre rest : List String)
    (h : ∀ x ∈ pre, rec x = .unknown) :
    recognizeWithFallback rec (pre ++ rest) =
      (pre ++ (recognizeWithFallback rec rest).1, (recognizeWithFallback rec rest).2) := by
  induction pre with
  | nil => simp [recognizeWithFallback]
  | cons a t ih =>
    have ha : rec a = .unknown := h a (by simp)
    have ht : ∀ x ∈ t, rec x = .unknown := fun x hx => h x (by simp [hx])
    simp [recognizeWithFallback, ha, ih ht]

/-! ## Step lemmas for the retry loop -/

lemma retryLoop_zero (env : SolveEnv) (language : String) (i : Nat) (s : SolveState) :
    retryLoop env language i 0 s = (s, .exhausted) := rfl

/-- Iteration `i`: the error-indicator wait times out → `break`. -/
lemma retryLoop_succ_break (env : SolveEnv) (language : String) (i m : Nat)
    (s : SolveState) (hi : env.errorIndicator i = false) :
    retryLoop env language i (m + 1) s =
      ({ s with trace := s.trace ++ [.probeError i] }, .solved) := by
  unfold retryLoop
  simp [hi]

/-- Iteration `i`: error indicator present, but the fresh pipeline
invocation raises → the exception propagates out of the loop. -/
lemma retryLoop_succ_raise (env : SolveEnv) (language : String) (i m : Nat)
    (s : SolveState) (e : Exc) (hi : env.errorIndicator i = true)
    (h0 : audioResult (env.audioEnvs (i + 1)) language = .error e) :
    retryLoop env language i (m + 1) s =
      ({ frames := s.frames,
         fs := (solveAudioChallenge (env.audioEnvs (i + 1)) env.tmpDir language
                  (env.ids (i + 1)) s.fs).fs,
         trace := s.trace ++ [.probeError i, .pipelineCall (i + 1)] },
       .raised e) := by
  unfold retryLoop
  simp [hi, runPipeline, solveAudioChallenge_result, h0]

/-- Iteration `i`: error indicator present, pipeline succeeds, but the
re-located verify wait times out → the `except TimeoutException` catches
it → `break`. -/
lemma retryLoop_succ_verifyTimeout (env : SolveEnv) (language : String) (i m : Nat)
    (s : SolveState) (t : String) (hi : env.errorIndicator i = true)
    (h0 : audioResult (env.audioEnvs (i + 1)) language = .ok t)
    (hv : env.verifyRetryFound i = false) :
    retryLoop env language i (m + 1) s =
      ({ frames := s.frames,
         fs := (solveAudioChallenge (env.audioEnvs (i + 1)) env.tmpDir language
                  (env.ids (i + 1)) s.fs).fs,
         trace := s.trace ++ [.probeError i, .pipelineCall (i + 1)] },
       .solved) := by
  unfold retryLoop
  simp [hi, runPipeline, solveAudioChallenge_result, h0, hv]

/-- Iteration `i` runs in full and the loop continues. -/
lemma retryLoop_succ_continue (env : SolveEnv) (language : String) (i m : Nat)
    (s : SolveState) (t : String) (hi : env.errorIndicator i = true)
    (h0 : audioResult (env.audioEnvs (i + 1)) language = .ok t)
    (hv : env.verifyRetryFound i = true) :
    retryLoop env language i (m + 1) s =
      retryLoop env language (i + 1) m
        { frames := s.frames,
          fs := (solveAudioChallenge (env.audioEnvs (i + 1)) env.tmpDir language
                   (env.ids (i + 1)) s.fs).fs,
          trace := s.trace ++ [.probeError i, .pipelineCall (i + 1), .clickVerify] } := by
  conv_lhs => rw [retryLoop.eq_def]
  simp [hi, runPipeline, solveAudioChallenge_result, h0, hv]

/-! ## Structural lemmas about the retry loop and `solve` -/

lemma retryLoop_frames (env : SolveEnv) (language : String) :
    ∀ (m i : Nat) (s : SolveState),
      ((retryLoop env language i m s).1).frames = s.frames := by
  intro m
  induction m with
  | zero => intro i s; rfl
  | succ m ih =>
    intro i s
    by_cases hi : env.errorIndicator i = true
    · cases h0 : audioResult (env.audioEnvs (i + 1)) language with
      | error e => rw [retryLoop_succ_raise env language i m s e hi h0]
      | ok t =>
        by_cases hv : env.verifyRetryFound i = true
        · rw [retryLoop_succ_continue env language i m s t hi h0 hv, ih]
        · rw [retryLoop_succ_verifyTimeout env language i m s t hi h0
            (by simpa using hv)]
    · rw [retryLoop_succ_break env language i m s (by simpa using hi)]

lemma all_sleeps_post (L : List (ℚ × ℚ)) :
    (L.map fun p => Event.sleepUniform p.1 p.2).all isPostPipelineEvent = true := by
  induction L with
  | nil => rfl
  | cons a t ih => simpa [isPostPipelineEvent] using ih

lemma retryLoop_trace (env : SolveEnv) (language : String) :
    ∀ (m i : Nat) (s : SolveState),
      ∃ t, ((retryLoop env language i m s).1).trace = s.trace ++ t ∧
        t.all isPostPipelineEvent = true := by
  intro m
  induction m with
  | zero => intro i s; exact ⟨[], by simp [retryLoop_zero], rfl⟩
  | succ m ih =>
    intro i s
    by_cases hi : env.errorIndicator i = true
    · cases h0 : audioResult (env.audioEnvs (i + 1)) language with
      | error e =>
        rw [retryLoop_succ_raise env language i m s e hi h0]
        exact ⟨[.probeError i, .pipelineCall (i + 1)], by simp,
          by simp [isPostPipelineEvent]⟩
      | ok t =>
        by_cases hv : env.verifyRetryFound i = true
        · rw [retryLoop_succ_continue env language i m s t hi h0 hv]
          obtain ⟨t', ht', hall⟩ := ih (i + 1)
            { frames := s.frames,
              fs := (solveAudioChallenge (env.audioEnvs (i + 1)) env.tmpDir language
                       (env.ids (i + 1)) s.fs).fs,
              trace := s.trace ++ [.probeError i, .pipelineCall (i + 1), .clickVerify] }
          refine ⟨[.probeError i, .pipelineCall (i + 1), .clickVerify] ++ t', ?_, ?_⟩
          · simpa using ht'
          · simpa [isPostPipelineEvent] using hall
        · rw [retryLoop_succ_verifyTimeout env language i m s t hi h0
            (by simpa using hv)]
          exact ⟨[.probeError i, .pipelineCall (i + 1)], by simp,
            by simp [isPostPipelineEvent]⟩
    · rw [retryLoop_succ_break env language i m s (by simpa using hi)]
      exact ⟨[.probeError i], by simp, by simp [isPostPipelineEvent]⟩

/-! ## Step lemmas for `solve` -/

lemma solve_eq_error0 (env : SolveEnv) (dc : DelayConfig) (language : String)
    (n : Nat) (s0 : SolveState) (e : Exc)
    (h0 : audioResult (env.audioEnvs 0) language = .error e) :
    solve env dc language n s0 = (afterPipeline0 env language s0, .error e) := by
  unfold solve
  cases hb : env.audioButtonFound <;>
    simp [runPipeline, solveAudioChallenge_result, h0, afterPipeline0, entryState, hb]

lemma solve_eq_verifyTimeout (env : SolveEnv) (dc : DelayConfig) (language : String)
    (n : Nat) (s0 : SolveState) (t : String)
    (h0 : audioResult (env.audioEnvs 0) language = .ok t)
    (hv : env.verifyButtonFound = false) :
    solve env dc language n s0 = (afterPipeline0 env language s0, .error .timeout) := by
  unfold solve
  cases hb : env.audioButtonFound <;>
    simp [runPipeline, solveAudioChallenge_result, h0, hv, afterPipeline0, entryState, hb]

lemma solve_eq_raised (env : SolveEnv) (dc : DelayConfig) (language : String)
    (n : Nat) (s0 : SolveState) (t : String) (e : Exc)
    (h0 : audioResult (env.audioEnvs 0) language = .ok t)
    (hv : env.verifyButtonFound = true)
    (hl : (retryLoop env language 0 n (postVerifyState env dc language s0)).2 = .raised e) :
    solve env dc language n s0 =
      ((retryLoop env language 0 n (postVerifyState env dc language s0)).1, .error e) := by
  unfold solve
  cases hb : env.audioButtonFound <;>
    simp only [runPipeline, solveAudioChallenge_result, h0, hv, hb] <;>
    · simp [postVerifyState, afterPipeline0, entryState, hb] at hl ⊢
      simp [hl]

lemma solve_eq_exhausted (env : SolveEnv) (dc : DelayConfig) (language : String)
    (n : Nat) (s0 : SolveState) (t : String)
    (h0 : audioResult (env.audioEnvs 0) language = .ok t)
    (hv : env.verifyButtonFound = true)
    (hl : (retryLoop env language 0 n (postVerifyState env dc language s0)).2 = .exhausted) :
    solve env dc language n s0 =
      ((retryLoop env language 0 n (postVerifyState env dc language s0)).1,
       .error (.recaptcha "Failed to solve captcha after maximum retry attempts")) := by
  unfold solve
  cases hb : env.audioButtonFound <;>
    simp only [runPipeline, solveAudioChallenge_result, h0, hv, hb] <;>
    · simp [postVerifyState, afterPipeline0, entryState, hb] at hl ⊢
      simp [hl]

lemma solve_eq_solved (env : SolveEnv) (dc : DelayConfig) (language : String)
    (n : Nat) (s0 : SolveState) (t : String)
    (h0 : audioResult (env.audioEnvs 0) language = .ok t)
    (hv : env.verifyButtonFound = true)
    (hl : (retryLoop env language 0 n (postVerifyState env dc language s0)).2 = .solved) :
    solve env dc language n s0 =
      ({ (retryLoop env language 0 n (postVerifyState env dc language s0)).1 with
          frames := ((retryLoop env language 0 n (postVerifyState env dc language s0)).1).frames.tail,
          trace := ((retryLoop env language 0 n (postVerifyState env dc language s0)).1).trace
            ++ [.switchToParent] },
       .ok ()) := by
  unfold solve
  cases hb : env.audioButtonFound <;>
    simp only [runPipeline, solveAudioChallenge_result, h0, hv, hb] <;>
    · simp [postVerifyState, afterPipeline0, entryState, hb] at hl ⊢
      simp [hl]

/-! ## Counting lemmas for the retry loop -/

/-- If every one of the `m` iterations observes the error indicator (and its
pipeline invocation and verify re-location succeed), the loop finishes all
iterations without a `break` and performs exactly `m` pipeline
invocations. -/
lemma retryLoop_allError (env : SolveEnv) (language : String) :
    ∀ (m i : Nat) (s : SolveState),
      (∀ j, j < m → fullIteration env language (i + j)) →
      (retryLoop env language i m s).2 = .exhausted ∧
      countPipeline ((retryLoop env language i m s).1).trace =
        countPipeline s.trace + m := by
  intro m
  induction m with
  | zero => intro i s _; simp [retryLoop_zero]
  | succ m ih =>
    intro i s h
    have h0 : fullIteration env language i := by simpa using h 0 (Nat.succ_pos m)
    obtain ⟨hi, hok, hv⟩ := h0
    obtain ⟨t, ht⟩ := resultOk_iff.mp hok
    rw [retryLoop_succ_continue env language i m s t hi ht hv]
    have hrest : ∀ j, j < m → fullIteration env language (i + 1 + j) := by
      intro j hj
      have := h (j + 1) (by omega)
      rwa [show i + (j + 1) = i + 1 + j by omega] at this
    obtain ⟨hex, hcount⟩ := ih (i + 1) _ hrest
    refine ⟨hex, ?_⟩
    rw [hcount]
    simp [countPipeline_append, countPipeline, List.filter]
    omega

/-- The loop ends in the `for … else` exhaustion branch only when the error
indicator was observed on every iteration. -/
lemma retryLoop_exhausted_probes (env : SolveEnv) (language : String) :
    ∀ (m i : Nat) (s : SolveState),
      (retryLoop env language i m s).2 = .exhausted →
      ∀ j, j < m → env.errorIndicator (i + j) = true := by
  intro m
  induction m with
  | zero => intro i s _ j hj; omega
  | succ m ih =>
    intro i s he j hj
    by_cases hi : env.errorIndicator i = true
    · cases haud : audioResult (env.audioEnvs (i + 1)) language with
      | error e =>
        rw [retryLoop_succ_raise env language i m s e hi haud] at he
        exact absurd he (by simp)
      | ok t =>
        by_cases hv : env.verifyRetryFound i = true
        · rw [retryLoop_succ_continue env language i m s t hi haud hv] at he
          match j, hj with
          | 0, _ => simpa using hi
          | j + 1, hj =>
            have := ih (i + 1) _ he j (by omega)
            rwa [show i + 1 + j = i + (j + 1) by omega] at this
        · rw [retryLoop_succ_verifyTimeout env language i m s t hi haud
            (by simpa using hv)] at he
          exact absurd he (by simp)
    · rw [retryLoop_succ_break env language i m s (by simpa using hi)] at he
      exact absurd he (by simp)

/-- If the first `k` iterations run in full and the error indicator is
absent on iteration `k < m`, the loop `break`s there, having performed
exactly `k` further pipeline invocations and `k` further verify clicks. -/
lemma retryLoop_break_at (env : SolveEnv) (language : String) :
    ∀ (k m i : Nat) (s : SolveState), k < m →
      (∀ j, j < k → fullIteration env language (i + j)) →
      env.errorIndicator (i + k) = false →
      (retryLoop env language i m s).2 = .solved ∧
      countPipeline ((retryLoop env language i m s).1).trace =
        countPipeline s.trace + k ∧
      countVerify ((retryLoop env language i m s).1).trace =
        countVerify s.trace + k := by
  intro k
  induction k with
  | zero =>
    intro m i s hk _ habs
    match m, hk with
    | m + 1, _ =>
      rw [retryLoop_succ_break env language i m s (by simpa using habs)]
      simp [countPipeline_append, countVerify_append, countPipeline, countVerify,
        List.filter]
  | succ k ih =>
    intro m i s hk hfull habs
    match m, hk with
    | m + 1, hk =>
      have h0 : fullIteration env language i := by simpa using hfull 0 (Nat.succ_pos k)
      obtain ⟨hi, hok, hv⟩ := h0
      obtain ⟨t, ht⟩ := resultOk_iff.mp hok
      rw [retryLoop_succ_continue env language i m s t hi ht hv]
      have hrest : ∀ j, j < k → fullIteration env language (i + 1 + j) := by
        intro j hj
        have := hfull (j + 1) (by omega)
        rwa [show i + (j + 1) = i + 1 + j by omega] at this
      have habs' : env.errorIndicator (i + 1 + k) = false := by
        rwa [show i + (k + 1) = i + 1 + k by omega] at habs
      obtain ⟨hs, hp, hvv⟩ := ih m (i + 1) _ (by omega) hrest habs'
      refine ⟨hs, ?_, ?_⟩
      · rw [hp]
        simp [countPipeline_append, countPipeline, List.filter]
        omega
      · rw [hvv]
        simp [countVerify_append, countVerify, List.filter]
        omega

/-! ## Event counts of the pre-loop states -/

lemma countPipeline_postVerify (env : SolveEnv) (dc : DelayConfig) (language : String)
    (s0 : SolveState) :
    countPipeline (postVerifyState env dc language s0).trace =
      countPipeline s0.trace + 1 := by
  cases hb : env.audioButtonFound <;>
    · simp [postVerifyState, afterPipeline0, entryState, hb, countPipeline_append,
        countPipeline_sleeps, countPipeline, List.filter]
      intro a x y _ h
      subst h
      rfl

lemma countVerify_postVerify (env : SolveEnv) (dc : DelayConfig) (language : String)
    (s0 : SolveState) :
    countVerify (postVerifyState env dc language s0).trace =
      countVerify s0.trace + 1 := by
  cases hb : env.audioButtonFound <;>
    · simp [postVerifyState, afterPipeline0, entryState, hb, countVerify_append,
        countVerify_sleeps, countVerify, List.filter]
      intro a x y _ h
      subst h
      rfl

lemma countProbe_postVerify (env : SolveEnv) (dc : DelayConfig) (language : String)
    (s0 : SolveState) :
    countProbe (postVerifyState env dc language s0).trace = countProbe s0.trace := by
  cases hb : env.audioButtonFound <;>
    · simp [postVerifyState, afterPipeline0, entryState, hb, countProbe_append,
        countProbe_sleeps, countProbe, List.filter]
      intro a x y _ h
      subst h
      rfl

/-- No event of the post-pipeline tail is a checkbox-delay invocation. -/
lemma not_mem_of_all_post {t : List Event} (h : t.all isPostPipelineEvent = true) :
    Event.delayCheckboxInvoked ∉ t := by
  intro hmem
  have := List.all_eq_true.mp h _ hmem
  simp [isPostPipelineEvent] at this

/-- Every exit of `solve` leaves a trace that extends the
`afterPipeline0` trace by post-pipeline events only. -/
lemma solve_trace_extends (env : SolveEnv) (dc : DelayConfig) (language : String)
    (n : Nat) (s0 : SolveState) :
    ∃ t, ((solve env dc language n s0).1).trace =
      (afterPipeline0 env language s0).trace ++ t ∧
      t.all isPostPipelineEvent = true := by
  cases h0 : audioResult (env.audioEnvs 0) language with
  | error e =>
    rw [solve_eq_error0 env dc language n s0 e h0]
    exact ⟨[], by simp, rfl⟩
  | ok t =>
    by_cases hv : env.verifyButtonFound = true
    · have hPtrace : (postVerifyState env dc language s0).trace =
        (afterPipeline0 env language s0).trace ++ ([.clickVerify, .delayVerifyInvoked]
          ++ dc.verifySleeps.map fun p => .sleepUniform p.1 p.2) := by
        simp [postVerifyState]
      obtain ⟨t', ht', hall⟩ :=
        retryLoop_trace env language n 0 (postVerifyState env dc language s0)
      cases hl : (retryLoop env language 0 n (postVerifyState env dc language s0)).2 with
      | solved =>
        rw [solve_eq_solved env dc language n s0 t h0 hv hl]
        refine ⟨([.clickVerify, .delayVerifyInvoked]
          ++ dc.verifySleeps.map fun p => .sleepUniform p.1 p.2) ++ t'
          ++ [.switchToParent], ?_, ?_⟩
        · simp only []
          rw [ht', hPtrace]
          simp
        · simp only [List.all_append, Bool.and_eq_true]
          exact ⟨⟨⟨rfl, all_sleeps_post dc.verifySleeps⟩, hall⟩, rfl⟩
      | exhausted =>
        rw [solve_eq_exhausted env dc language n s0 t h0 hv hl]
        refine ⟨([.clickVerify, .delayVerifyInvoked]
          ++ dc.verifySleeps.map fun p => .sleepUniform p.1 p.2) ++ t', ?_, ?_⟩
        · rw [ht', hPtrace]
          simp
        · simp only [List.all_append, Bool.and_eq_true]
          exact ⟨⟨rfl, all_sleeps_post dc.verifySleeps⟩, hall⟩
      | raised e =>
        rw [solve_eq_raised env dc language n s0 t e h0 hv hl]
        refine ⟨([.clickVerify, .delayVerifyInvoked]
          ++ dc.verifySleeps.map fun p => .sleepUniform p.1 p.2) ++ t', ?_, ?_⟩
        · rw [ht', hPtrace]
          simp
        · simp only [List.all_append, Bool.and_eq_true]
          exact ⟨⟨rfl, all_sleeps_post dc.verifySleeps⟩, hall⟩
    · rw [solve_eq_verifyTimeout env dc language n s0 t h0 (by simpa using hv)]
      exact ⟨[], by simp, rfl⟩

/-! ## Claim C4 -/

/-- C4: for every transcription-pipeline run, on every exit path after the
attempt's unique identifier is generated (success, no-language-understood
failure, recognition-service error, or any other exception), neither the
mp3 nor the wav temp file named with that identifier remains on disk when
the call returns or the exception propagates. -/
theorem C4_temp_files_removed (a : AudioEnv) (tmpDir language id_ : String)
    (fs : List String) (h : a.linkFound = true) :
    mp3File tmpDir id_ ∉ (solveAudioChallenge a tmpDir language id_ fs).fs ∧
    wavFile tmpDir id_ ∉ (solveAudioChallenge a tmpDir language id_ fs).fs := by
  unfold solveAudioChallenge
  simp [h, List.mem_filter]

/-- Witness for C4: a fully successful attempt whose temp files (present on
disk mid-run) are gone afterwards. -/
theorem C4_witness :
    okAudio.linkFound = true ∧
    mp3File "/tmp" "abc" ∉
      (solveAudioChallenge okAudio "/tmp" "en-US" "abc" [mp3File "/tmp" "abc"]).fs ∧
    wavFile "/tmp" "abc" ∉
      (solveAudioChallenge okAudio "/tmp" "en-US" "abc" [mp3File "/tmp" "abc"]).fs := by
  have h := C4_temp_files_removed okAudio "/tmp" "en-US" "abc" [mp3File "/tmp" "abc"] rfl
  exact ⟨rfl, h.1, h.2⟩

/-! ## Claim C5 -/

/-- Counterexample to C5 as stated: with every language recognized as the
empty string, the configured language is the first language whose
recognition does not report "could not understand", yet the pipeline does
not produce its (empty) lower-cased text as the transcript — the
`if not recognized_text` check raises the recognition-failure exception
instead. -/
theorem C5_cex :
    emptyTranscriptAudio.recognize "en-US" = .ok "" ∧
    lowerStr "" = "" ∧
    (solveAudioChallenge emptyTranscriptAudio "/tmp" "en-US" "id0" []).result =
      .error (.recaptcha "Speech recognition API could not understand audio, try again") :=
  ⟨rfl, rfl, rfl⟩

/-- C5 (amended): recognition is attempted in the fixed order
`[configured, en-US, en-GB, en]`; whenever the languages before `lang` all
report "could not understand" and `lang` is recognized as `t` whose
lower-casing is non-empty, the pipeline's transcript is `lowerStr t` and no
language after `lang` is attempted.  (If the first successful recognition
lower-cases to the empty string, the pipeline instead fails with the
recognition-failure exception, as `C5_cex` shows.) -/
theorem C5_first_success_transcript (a : AudioEnv) (tmpDir language id_ : String)
    (fs : List String) (pre : List String) (lang : String) (post : List String)
    (t : String)
    (hlink : a.linkFound = true) (hfetch : a.fetchOk = true)
    (hconv : a.convertOk = true) (hrec : a.recordOk = true)
    (hdecomp : fallbackLanguages language = pre ++ lang :: post)
    (hpre : ∀ x ∈ pre, a.recognize x = .unknown)
    (hok : a.recognize lang = .ok t)
    (hne : lowerStr t ≠ "") :
    (solveAudioChallenge a tmpDir language id_ fs).result = .ok (lowerStr t) ∧
    (solveAudioChallenge a tmpDir language id_ fs).attempts = pre ++ [lang] := by
  have hloop : recognizeWithFallback a.recognize (fallbackLanguages language) =
      (pre ++ [lang], .ok (some (lowerStr t))) := by
    rw [hdecomp, recognizeWithFallback_append a.recognize pre (lang :: post) hpre]
    simp [recognizeWithFallback, hok]
  constructor
  · rw [solveAudioChallenge_result]
    unfold audioResult tryBlockResult
    simp [hlink, hfetch, hconv, hrec, hloop, hne]
  · rw [solveAudioChallenge_attempts]
    unfold audioAttempts
    simp [hlink, hfetch, hconv, hrec, hloop]

/-- Witness for C5: configured language `fr-FR` is not understood, the
first fallback `en-US` hears "Blue Cat", and the transcript is the
lower-cased "blue cat" with no later language attempted. -/
theorem C5_witness :
    (∀ x ∈ ["fr-FR"], mixedAudio.recognize x = .unknown) ∧
    mixedAudio.recognize "en-US" = .ok "Blue Cat" ∧
    (solveAudioChallenge mixedAudio "/tmp" "fr-FR" "id1" []).result = .ok "blue cat" ∧
    (solveAudioChallenge mixedAudio "/tmp" "fr-FR" "id1" []).attempts =
      ["fr-FR", "en-US"] := by
  have h := C5_first_success_transcript mixedAudio "/tmp" "fr-FR" "id1" []
    ["fr-FR"] "en-US" ["en-GB", "en"] "Blue Cat" rfl rfl rfl rfl rfl
    (by decide) (by decide) (by decide)
  have hl : lowerStr "Blue Cat" = "blue cat" := by decide
  exact ⟨by decide, by decide, by rw [h.1, hl], h.2⟩

/-! ## Claim C6 -/

/-- C6: a recognition-service transport error (`sr.RequestError`) at any
point of the fallback order aborts the pipeline immediately with the
wrapped service-error exception, attempting no further language; in
contrast, a "could not understand" outcome (`sr.UnknownValueError`)
continues to the next language in the list. -/
theorem C6_service_error_aborts :
    (∀ (a : AudioEnv) (tmpDir language id_ : String) (fs : List String)
       (pre : List String) (lang : String) (post : List String) (msg : String),
      a.linkFound = true → a.fetchOk = true → a.convertOk = true → a.recordOk = true →
      fallbackLanguages language = pre ++ lang :: post →
      (∀ x ∈ pre, a.recognize x = .unknown) →
      a.recognize lang = .requestError msg →
      (solveAudioChallenge a tmpDir language id_ fs).result =
        .error (.recaptcha ("Speech recognition service error: " ++ msg)) ∧
      (solveAudioChallenge a tmpDir language id_ fs).attempts = pre ++ [lang]) ∧
    (∀ (a : AudioEnv) (tmpDir language id_ : String) (fs : List String)
       (pre : List String) (lang : String) (post : List String),
      a.linkFound = true → a.fetchOk = true → a.convertOk = true → a.recordOk = true →
      fallbackLanguages language = pre ++ lang :: post →
      (∀ x ∈ pre, a.recognize x = .unknown) →
      a.recognize lang = .unknown →
      (solveAudioChallenge a tmpDir language id_ fs).attempts =
        pre ++ lang :: (recognizeWithFallback a.recognize post).1) := by
  constructor
  · intro a tmpDir language id_ fs pre lang post msg hlink hfetch hconv hrec hdecomp hpre herr
    have hloop : recognizeWithFallback a.recognize (fallbackLanguages language) =
        (pre ++ [lang], .error msg) := by
      rw [hdecomp, recognizeWithFallback_append a.recognize pre (lang :: post) hpre]
      simp [recognizeWithFallback, herr]
    constructor
    · rw [solveAudioChallenge_result]
      unfold audioResult tryBlockResult
      simp [hlink, hfetch, hconv, hrec, hloop]
    · rw [solveAudioChallenge_attempts]
      unfold audioAttempts
      simp [hlink, hfetch, hconv, hrec, hloop]
  · intro a tmpDir language id_ fs pre lang post hlink hfetch hconv hrec hdecomp hpre hunk
    have hloop : recognizeWithFallback a.recognize (fallbackLanguages language) =
        (pre ++ lang :: (recognizeWithFallback a.recognize post).1,
         (recognizeWithFallback a.recognize post).2) := by
      rw [hdecomp, recognizeWithFallback_append a.recognize pre (lang :: post) hpre]
      simp [recognizeWithFallback, hunk]
    rw [solveAudioChallenge_attempts]
    unfold audioAttempts
    simp [hlink, hfetch, hconv, hrec, hloop]

/-- Witness for C6: `fr-FR` is not understood (the loop continues past it),
then `en-US` hits a service fault and the pipeline aborts at once. -/
theorem C6_witness :
    svcErrAudio.recognize "fr-FR" = .unknown ∧
    svcErrAudio.recognize "en-US" = .requestError "quota exceeded" ∧
    (solveAudioChallenge svcErrAudio "/tmp" "fr-FR" "id2" []).result =
      .error (.recaptcha "Speech recognition service error: quota exceeded") ∧
    (solveAudioChallenge svcErrAudio "/tmp" "fr-FR" "id2" []).attempts =
      ["fr-FR", "en-US"] := by
  have h := C6_service_error_aborts.1 svcErrAudio "/tmp" "fr-FR" "id2" []
    ["fr-FR"] "en-US" ["en-GB", "en"] "quota exceeded" rfl rfl rfl rfl rfl
    (by decide) (by decide)
  exact ⟨by decide, by decide, h.1, h.2⟩

/-! ## Claim C1 -/

/-- Counterexample to C1 as stated: when the initial pipeline invocation
fails (download link absent), `solve` propagates the exception while the
session is still switched into the challenge frame — the frame context is
not returned to the parent document. -/
theorem C1_cex :
    (solve detectEnv NoOpDelayConfig "en-US" 3 initState).2 =
      .error (.recaptcha "Google has detected automated queries. Try again later.") ∧
    ((solve detectEnv NoOpDelayConfig "en-US" 3 initState).1).frames ≠
      initState.frames := by
  constructor
  · rfl
  · decide

/-- C1 (amended): `solve` switches the frame context back to the parent
document only on the normal-return path; on every exception path
(detection error, recognition failure, verify-button timeout, retries
exhausted) it propagates with the session still inside the challenge
frame. -/
theorem C1_frames_restored_only_on_success (env : SolveEnv) (dc : DelayConfig)
    (language : String) (n : Nat) (s0 : SolveState) :
    ((solve env dc language n s0).2 = .ok () →
      ((solve env dc language n s0).1).frames = s0.frames) ∧
    (∀ e, (solve env dc language n s0).2 = .error e →
      ((solve env dc language n s0).1).frames = Frame.challenge :: s0.frames) := by
  cases h0 : audioResult (env.audioEnvs 0) language with
  | error e =>
    rw [solve_eq_error0 env dc language n s0 e h0]
    exact ⟨by simp, fun e' _ => by simp [afterPipeline0]⟩
  | ok t =>
    by_cases hv : env.verifyButtonFound = true
    · cases hl : (retryLoop env language 0 n (postVerifyState env dc language s0)).2 with
      | solved =>
        rw [solve_eq_solved env dc language n s0 t h0 hv hl]
        refine ⟨fun _ => ?_, fun e' he' => by simp at he'⟩
        simp [retryLoop_frames, postVerifyState, afterPipeline0]
      | exhausted =>
        rw [solve_eq_exhausted env dc language n s0 t h0 hv hl]
        refine ⟨by simp, fun e' _ => ?_⟩
        simp [retryLoop_frames, postVerifyState, afterPipeline0]
      | raised e =>
        rw [solve_eq_raised env dc language n s0 t e h0 hv hl]
        refine ⟨by simp, fun e' _ => ?_⟩
        simp [retryLoop_frames, postVerifyState, afterPipeline0]
    · rw [solve_eq_verifyTimeout env dc language n s0 t h0 (by simpa using hv)]
      exact ⟨by simp, fun e' _ => by simp [afterPipeline0]⟩

/-- Witness for C1 (amended): a failing run ends still inside the challenge
frame; a successful run ends back in the caller's (top-level) context. -/
theorem C1_witness :
    ((solve detectEnv NoOpDelayConfig "en-US" 3 initState).1).frames =
      Frame.challenge :: initState.frames ∧
    (solve happyEnv NoOpDelayConfig "en-US" 3 initState).2 = .ok () ∧
    ((solve happyEnv NoOpDelayConfig "en-US" 3 initState).1).frames =
      initState.frames := by
  refine ⟨(C1_frames_restored_only_on_success detectEnv NoOpDelayConfig
      "en-US" 3 initState).2 _ rfl, rfl,
    (C1_frames_restored_only_on_success happyEnv NoOpDelayConfig
      "en-US" 3 initState).1 rfl⟩

/-! ## Claim C2 -/

/-- C2: with `max_retries = n`, if the error indicator is observed on every
one of the `n` probe iterations (and each iteration's pipeline invocation
and verify re-location succeed, which every probe after the first
presupposes), `solve` raises the retries-exhausted `RecaptchaException` and
performs exactly `n` pipeline invocations beyond the initial one; moreover
the exhaustion branch is reachable only when every probe observed the
indicator, so it is the loop's only terminal-failure path of its own. -/
theorem C2_retries_exhausted (env : SolveEnv) (dc : DelayConfig) (language : String)
    (n : Nat) (s0 : SolveState)
    (h0 : resultOk (audioResult (env.audioEnvs 0) language) = true)
    (hv : env.verifyButtonFound = true)
    (hall : ∀ j, j < n → fullIteration env language j) :
    (solve env dc language n s0).2 =
      .error (.recaptcha "Failed to solve captcha after maximum retry attempts") ∧
    countPipeline ((solve env dc language n s0).1).trace =
      countPipeline s0.trace + (n + 1) ∧
    (∀ (m i : Nat) (s : SolveState),
      (retryLoop env language i m s).2 = .exhausted →
      ∀ j, j < m → env.errorIndicator (i + j) = true) := by
  obtain ⟨t, ht⟩ := resultOk_iff.mp h0
  have hall' : ∀ j, j < n → fullIteration env language (0 + j) := by
    intro j hj
    simpa using hall j hj
  obtain ⟨hex, hcount⟩ :=
    retryLoop_allError env language n 0 (postVerifyState env dc language s0) hall'
  rw [solve_eq_exhausted env dc language n s0 t ht hv hex]
  refine ⟨rfl, ?_, retryLoop_exhausted_probes env language⟩
  rw [hcount, countPipeline_postVerify]
  omega

/-- Witness for C2: two retries, the indicator present on both probes →
retries-exhausted error after 3 pipeline invocations in total. -/
theorem C2_witness :
    resultOk (audioResult (allErrorEnv.audioEnvs 0) "en-US") = true ∧
    allErrorEnv.verifyButtonFound = true ∧
    (∀ j, j < 2 → fullIteration allErrorEnv "en-US" j) ∧
    (solve allErrorEnv NoOpDelayConfig "en-US" 2 initState).2 =
      .error (.recaptcha "Failed to solve captcha after maximum retry attempts") ∧
    countPipeline ((solve allErrorEnv NoOpDelayConfig "en-US" 2 initState).1).trace =
      countPipeline initState.trace + (2 + 1) := by
  have h := C2_retries_exhausted allErrorEnv NoOpDelayConfig "en-US" 2 initState
    (by decide) rfl (by decide)
  exact ⟨by decide, rfl, by decide, h.1, h.2.1⟩

/-! ## Claim C3 -/

/-- C3: if the first `k` probe iterations all observe the error indicator
(running in full) and the probe of iteration `k < max_retries` times out
(indicator absent), `solve` breaks out of the loop and returns normally,
with exactly `k + 1` pipeline invocations and `k + 1` verify-button
activations in total — none after iteration `k`. -/
theorem C3_break_on_absent_indicator (env : SolveEnv) (dc : DelayConfig)
    (language : String) (n k : Nat) (s0 : SolveState)
    (h0 : resultOk (audioResult (env.audioEnvs 0) language) = true)
    (hv : env.verifyButtonFound = true)
    (hk : k < n)
    (hfull : ∀ j, j < k → fullIteration env language j)
    (habs : env.errorIndicator k = false) :
    (solve env dc language n s0).2 = .ok () ∧
    countPipeline ((solve env dc language n s0).1).trace =
      countPipeline s0.trace + (k + 1) ∧
    countVerify ((solve env dc language n s0).1).trace =
      countVerify s0.trace + (k + 1) := by
  obtain ⟨t, ht⟩ := resultOk_iff.mp h0
  have hfull' : ∀ j, j < k → fullIteration env language (0 + j) := by
    intro j hj
    simpa using hfull j hj
  have habs' : env.errorIndicator (0 + k) = false := by simpa using habs
  obtain ⟨hs, hp, hvv⟩ := retryLoop_break_at env language k n 0
    (postVerifyState env dc language s0) hk hfull' habs'
  rw [solve_eq_solved env dc language n s0 t ht hv hs]
  refine ⟨rfl, ?_, ?_⟩
  · simp only [countPipeline_append]
    rw [hp, countPipeline_postVerify]
    simp [countPipeline, List.filter]
    omega
  · simp only [countVerify_append]
    rw [hvv, countVerify_postVerify]
    simp [countVerify, List.filter]
    omega

/-- Witness for C3: indicator present on iteration 0 only, `max_retries = 3`
→ success after 2 pipeline invocations and 2 verify clicks. -/
theorem C3_witness :
    resultOk (audioResult (breakAt1Env.audioEnvs 0) "en-US") = true ∧
    breakAt1Env.verifyButtonFound = true ∧
    (1 : Nat) < 3 ∧
    (∀ j, j < 1 → fullIteration breakAt1Env "en-US" j) ∧
    breakAt1Env.errorIndicator 1 = false ∧
    (solve breakAt1Env NoOpDelayConfig "en-US" 3 initState).2 = .ok () ∧
    countPipeline ((solve breakAt1Env NoOpDelayConfig "en-US" 3 initState).1).trace =
      countPipeline initState.trace + (1 + 1) ∧
    countVerify ((solve breakAt1Env NoOpDelayConfig "en-US" 3 initState).1).trace =
      countVerify initState.trace + (1 + 1) := by
  have h := C3_break_on_absent_indicator breakAt1Env NoOpDelayConfig "en-US" 3 1
    initState (by decide) rfl (by decide) (by decide) (by decide)
  exact ⟨by decide, rfl, by decide, by decide, by decide, h.1, h.2.1, h.2.2⟩

/-! ## Claim C7 -/

/-- C7: `is_solved` never raises — every failure of its body (missing
checkbox iframe, element-wait timeout, stale-reference/attribute-read
failure) is caught and yields `false` — and on both the success and the
failure path the frame context is reset to the top-level document before
the call returns. -/
theorem C7_isSolved_never_raises (p : ProbeEnv) (s : SolveState) :
    ((isSolved p s).1).frames = [] ∧
    (∀ e, (isSolvedBody p s).2 = .error e → (isSolved p s).2 = false) := by
  unfold isSolved isSolvedBody
  by_cases hif : p.iframeFound <;> by_cases hcb : p.checkboxFound <;>
    by_cases har : p.attrReadOk <;> simp [hif, hcb, har]

/-- Witness for C7: the checkbox iframe is missing → the body fails, the
probe returns `false`, and the frame context is the top-level document. -/
theorem C7_witness :
    (isSolvedBody failProbe initState).2 = .error (.other "NoSuchElementException") ∧
    ((isSolved failProbe initState).1).frames = [] ∧
    (isSolved failProbe initState).2 = false := by
  exact ⟨rfl, (C7_isSolved_never_raises failProbe initState).1,
    (C7_isSolved_never_raises failProbe initState).2 _ rfl⟩

/-! ## Claim C8 -/

/-- C8: the two pre-verify timeout paths are asymmetric.  Absence of the
audio-mode control is non-fatal — `solve` proceeds to invoke the
transcription pipeline regardless; absence of the audio download link
makes the pipeline raise
`RecaptchaException('Google has detected automated queries. Try again later.')`,
which `solve` propagates to its caller. -/
theorem C8_timeout_asymmetry :
    (∀ (env : SolveEnv) (dc : DelayConfig) (language : String) (n : Nat)
       (s0 : SolveState), env.audioButtonFound = false →
      Event.pipelineCall 0 ∈ ((solve env dc language n s0).1).trace) ∧
    (∀ (env : SolveEnv) (dc : DelayConfig) (language : String) (n : Nat)
       (s0 : SolveState), (env.audioEnvs 0).linkFound = false →
      (solve env dc language n s0).2 =
        .error (.recaptcha "Google has detected automated queries. Try again later.")) := by
  constructor
  · intro env dc language n s0 _
    obtain ⟨t, ht, _⟩ := solve_trace_extends env dc language n s0
    rw [ht]
    have : Event.pipelineCall 0 ∈ (afterPipeline0 env language s0).trace := by
      simp [afterPipeline0]
    exact List.mem_append_left t this
  · intro env dc language n s0 hlink
    have h0 : audioResult (env.audioEnvs 0) language =
        .error (.recaptcha "Google has detected automated queries. Try again later.") := by
      unfold audioResult
      simp [hlink]
    rw [solve_eq_error0 env dc language n s0 _ h0]

/-- Witness for C8: a run starting directly in audio mode still invokes the
pipeline; a run whose download link never appears fails with the detection
error. -/
theorem C8_witness :
    noAudioButtonEnv.audioButtonFound = false ∧
    Event.pipelineCall 0 ∈
      ((solve noAudioButtonEnv NoOpDelayConfig "en-US" 3 initState).1).trace ∧
    (detectEnv.audioEnvs 0).linkFound = false ∧
    (solve detectEnv NoOpDelayConfig "en-US" 3 initState).2 =
      .error (.recaptcha "Google has detected automated queries. Try again later.") := by
  exact ⟨rfl,
    C8_timeout_asymmetry.1 noAudioButtonEnv NoOpDelayConfig "en-US" 3 initState rfl,
    rfl,
    C8_timeout_asymmetry.2 detectEnv NoOpDelayConfig "en-US" 3 initState rfl⟩

/-! ## Claim C9 -/

/-- Counterexample to C9 as stated: even with a no-op delay policy
substituted, the pause after activating the audio-mode control is still
present — it is the hard-coded `time.sleep(random.uniform(2, 3))`, not the
policy's `delay_after_click_checkbox` (which is never invoked). -/
theorem C9_cex :
    NoOpDelayConfig.checkboxSleeps = [] ∧
    NoOpDelayConfig.verifySleeps = [] ∧
    Event.sleepUniform 2 3 ∈
      ((solve happyEnv NoOpDelayConfig "en-US" 3 initState).1).trace ∧
    Event.delayCheckboxInvoked ∉
      ((solve happyEnv NoOpDelayConfig "en-US" 3 initState).1).trace := by
  exact ⟨rfl, rfl, by decide, by decide⟩

/-- C9 (amended): the pause after activating the audio-mode control is a
hard-coded randomized sleep over the range 2–3 time-units, independent of
the configured Delay Policy; the policy's after-checkbox-click operation
(range 1.5–3.0 in the standard policy) is never invoked during `solve`, so
substituting a no-op policy does not eliminate the pause. -/
theorem C9_hardcoded_pause (env : SolveEnv) (dc : DelayConfig) (language : String)
    (n : Nat) (s0 : SolveState)
    (hb : env.audioButtonFound = true)
    (hni : Event.delayCheckboxInvoked ∉ s0.trace) :
    Event.sleepUniform 2 3 ∈ ((solve env dc language n s0).1).trace ∧
    Event.delayCheckboxInvoked ∉ ((solve env dc language n s0).1).trace ∧
    StandardDelayConfig.checkboxSleeps = [((3 : ℚ)/2, 3)] := by
  obtain ⟨t, ht, hall⟩ := solve_trace_extends env dc language n s0
  rw [ht]
  refine ⟨?_, ?_, rfl⟩
  · have : Event.sleepUniform 2 3 ∈ (afterPipeline0 env language s0).trace := by
      simp [afterPipeline0, entryState, hb]
    exact List.mem_append_left t this
  · intro hmem
    rcases List.mem_append.mp hmem with hpre | htail
    · have : Event.delayCheckboxInvoked ∈ s0.trace := by
        simpa [afterPipeline0, entryState, hb] using hpre
      exact hni this
    · exact not_mem_of_all_post hall htail

/-- Witness for C9 (amended): a concrete run with the standard policy. -/
theorem C9_witness :
    happyEnv.audioButtonFound = true ∧
    Event.delayCheckboxInvoked ∉ initState.trace ∧
    Event.sleepUniform 2 3 ∈
      ((solve happyEnv StandardDelayConfig "en-US" 3 initState).1).trace ∧
    Event.delayCheckboxInvoked ∉
      ((solve happyEnv StandardDelayConfig "en-US" 3 initState).1).trace := by
  have h := C9_hardcoded_pause happyEnv StandardDelayConfig "en-US" 3 initState
    rfl (by decide)
  exact ⟨rfl, by decide, h.1, h.2.1⟩

/-! ## Claim C10 -/

/-- C10: constructed with `max_retries = 0`, every `solve` run reaching the
post-verify retry loop raises the retries-exhausted `RecaptchaException`
without probing the error indicator even once, and a normal return from
`solve` requires `max_retries ≥ 1`. -/
theorem C10_zero_retries_always_fail :
    (∀ (env : SolveEnv) (dc : DelayConfig) (language : String) (s0 : SolveState),
      resultOk (audioResult (env.audioEnvs 0) language) = true →
      env.verifyButtonFound = true →
      (solve env dc language 0 s0).2 =
        .error (.recaptcha "Failed to solve captcha after maximum retry attempts") ∧
      countProbe ((solve env dc language 0 s0).1).trace = countProbe s0.trace) ∧
    (∀ (env : SolveEnv) (dc : DelayConfig) (language : String) (n : Nat)
       (s0 : SolveState), (solve env dc language n s0).2 = .ok () → 1 ≤ n) := by
  constructor
  · intro env dc language s0 h0 hv
    obtain ⟨t, ht⟩ := resultOk_iff.mp h0
    have hex : (retryLoop env language 0 0 (postVerifyState env dc language s0)).2 =
        .exhausted := rfl
    rw [solve_eq_exhausted env dc language 0 s0 t ht hv hex]
    exact ⟨rfl, countProbe_postVerify env dc language s0⟩
  · intro env dc language n s0 hok
    by_contra hn
    have hn0 : n = 0 := by omega
    subst hn0
    cases h0 : audioResult (env.audioEnvs 0) language with
    | error e =>
      rw [solve_eq_error0 env dc language 0 s0 e h0] at hok
      simp at hok
    | ok t =>
      by_cases hv : env.verifyButtonFound = true
      · have hex : (retryLoop env language 0 0 (postVerifyState env dc language s0)).2 =
          .exhausted := rfl
        rw [solve_eq_exhausted env dc language 0 s0 t h0 hv hex] at hok
        simp at hok
      · rw [solve_eq_verifyTimeout env dc language 0 s0 t h0 (by simpa using hv)] at hok
        simp at hok

/-- Witness for C10: a run in which the challenge would be answered
correctly (the indicator never shows) still fails when `max_retries = 0`,
with zero probes. -/
theorem C10_witness :
    resultOk (audioResult (happyEnv.audioEnvs 0) "en-US") = true ∧
    happyEnv.verifyButtonFound = true ∧
    (solve happyEnv NoOpDelayConfig "en-US" 0 initState).2 =
      .error (.recaptcha "Failed to solve captcha after maximum retry attempts") ∧
    countProbe ((solve happyEnv NoOpDelayConfig "en-US" 0 initState).1).trace =
      countProbe initState.trace := by
  have h := C10_zero_retries_always_fail.1 happyEnv NoOpDelayConfig "en-US" initState
    (by decide) rfl
  exact ⟨by decide, rfl, h.1, h.2⟩

end BreakingRecap
